import Mathlib

/-
Verification of the AINiagaraFXPlugin natural-language parameter-adjustment
pipeline (Content/Python/ai/openai_client.py and
Content/Python/niagara/parameter_manager.py), shallowly embedded in Lean.

Python values are modelled by an inductive `PyValue`; dicts keep insertion
order as association lists (keys are unique in a real Python dict, but no
theorem below depends on that).  The host engine (the `unreal` module) is an
oracle: for each adapter-setter invocation it says whether the underlying
native call succeeds; a `ParameterManager.set_*` method returns True exactly
when it does not raise, i.e. exactly when the oracle says true.
-/

namespace AINiagara

/-- JSON values as returned by `json.loads`, i.e. the Python values the
interpreter dispatches on.  `pyBool` is separate from `pyInt`, but the
`isinstance` predicates below reflect that in Python `bool` is a subclass of
`int`. -/
inductive PyValue where
  | pyBool (b : Bool)
  | pyInt (n : Int)
  | pyFloat (q : Rat)
  | pyStr (s : String)
  | pyDict (fields : List (String × PyValue))
  | pyList (xs : List PyValue)
  | pyNone

/-- Python `isinstance(v, dict)`. -/
def PyValue.isDict : PyValue → Bool
  | .pyDict _ => true
  | _ => false

/-- Python `isinstance(v, (int, float))`.  `True` and `False` satisfy this,
because in Python `bool` is a subclass of `int`. -/
def isinstanceIntFloat : PyValue → Bool
  | .pyBool _ => true
  | .pyInt _ => true
  | .pyFloat _ => true
  | _ => false

/-- Python `isinstance(v, bool)`. -/
def isinstanceBool : PyValue → Bool
  | .pyBool _ => true
  | _ => false

/-- Key lookup in a Python dict (association list, first match). -/
def dictLookup (d : List (String × PyValue)) (k : String) : Option PyValue :=
  (d.find? (fun p => p.1 == k)).map (fun p => p.2)

/-- Python `k in d` for a dict `d`. -/
def dictHasKey (d : List (String × PyValue)) (k : String) : Bool :=
  (dictLookup d k).isSome

/-- Python `d.get(k, dflt)`. -/
def dictGetD (d : List (String × PyValue)) (k : String) (dflt : PyValue) : PyValue :=
  (dictLookup d k).getD dflt

/-- Python truthiness, `bool(v)` — used by `if not parameters:`. -/
def PyValue.truthy : PyValue → Bool
  | .pyBool b => b
  | .pyInt n => n != 0
  | .pyFloat q => q != 0
  | .pyStr s => s != ""
  | .pyDict d => !d.isEmpty
  | .pyList xs => !xs.isEmpty
  | .pyNone => false

/-- One invocation of a `ParameterManager` setter, recording the raw argument
values at the call site in `_apply_adjustments`. -/
inductive SetterCall where
  | setFloat (name : String) (value : PyValue)
  | setBool (name : String) (value : PyValue)
  | setColor (name : String) (r g b a : PyValue)
  | setVector (name : String) (x y z : PyValue)

/-- The parameter store (the Niagara component plus the `unreal` native
setters) as an oracle: for each setter invocation, whether the underlying
`unreal.NiagaraVariableHelpers.set_*` call and its argument marshalling
succeed.  `ParameterManager.set_float` / `set_bool` / `set_color` /
`set_vector` catch every exception and return False, so each returns True
exactly when the corresponding oracle field says true. -/
structure Store where
  floatOk : String → PyValue → Bool
  boolOk : String → PyValue → Bool
  colorOk : String → PyValue → PyValue → PyValue → PyValue → Bool
  vectorOk : String → PyValue → PyValue → PyValue → Bool

/-- Whether a given setter invocation returned True. -/
def Store.callOk (st : Store) : SetterCall → Bool
  | .setFloat n v => st.floatOk n v
  | .setBool n v => st.boolOk n v
  | .setColor n r g b a => st.colorOk n r g b a
  | .setVector n x y z => st.vectorOk n x y z

/-- Body of the `for param_name, value in parameters.items():` loop of
`NiagaraAIAssistant._apply_adjustments` (openai_client.py lines 172-204),
for one pair: the setter calls it makes (none or one) and its contribution
to `success_count`.  The first match arm is `isinstance(value, dict)`; inside
it, the `if "r" in value and "g" in value and "b" in value` color branch is
tested before the `elif "x" in value and "y" in value and "z" in value`
vector branch, and a dict matching neither key set falls through silently.
A non-dict value is tested with `isinstance(value, (int, float))` before
`isinstance(value, bool)`, exactly as in the source. -/
def applyOnePair (st : Store) (param_name : String) (value : PyValue) :
    List SetterCall × Nat :=
  match value with
  | .pyDict d =>
      if dictHasKey d "r" && dictHasKey d "g" && dictHasKey d "b" then
        let r := dictGetD d "r" (.pyFloat 1)
        let g := dictGetD d "g" (.pyFloat 1)
        let b := dictGetD d "b" (.pyFloat 1)
        let a := dictGetD d "a" (.pyFloat 1)
        ([SetterCall.setColor param_name r g b a],
         if st.colorOk param_name r g b a then 1 else 0)
      else if dictHasKey d "x" && dictHasKey d "y" && dictHasKey d "z" then
        let x := dictGetD d "x" (.pyFloat 0)
        let y := dictGetD d "y" (.pyFloat 0)
        let z := dictGetD d "z" (.pyFloat 0)
        ([SetterCall.setVector param_name x y z],
         if st.vectorOk param_name x y z then 1 else 0)
      else ([], 0)
  | v =>
      if isinstanceIntFloat v then
        ([SetterCall.setFloat param_name v],
         if st.floatOk param_name v then 1 else 0)
      else if isinstanceBool v then
        ([SetterCall.setBool param_name v],
         if st.boolOk param_name v then 1 else 0)
      else ([], 0)

/-- Folding step accumulating the setter-call trace and `success_count`. -/
def applyStep (st : Store) (acc : List SetterCall × Nat) (p : String × PyValue) :
    List SetterCall × Nat :=
  let r := applyOnePair st p.1 p.2
  (acc.1 ++ r.1, acc.2 + r.2)

/-- The whole `for` loop of `_apply_adjustments` over the pairs of the
`parameters` dict, in insertion order. -/
def applyLoop (st : Store) (ps : List (String × PyValue)) :
    List SetterCall × Nat :=
  ps.foldl (applyStep st) ([], 0)

/-- Result of one `_apply_adjustments` call: the returned boolean, the setter
invocations made, and the `success_count` / `total_count` of the final log
line (`total_count = len(parameters)`). -/
structure ApplyOutcome where
  result : Bool
  calls : List SetterCall
  success_count : Nat
  total_count : Nat

/-- `NiagaraAIAssistant._apply_adjustments` (openai_client.py lines 155-207).
`adjustments` is the parsed JSON object as a field list.  `parameters =
adjustments.get("parameters", {})`; `if not parameters: return False`; then
the loop runs and the method returns `success_count > 0`.  `.error ()` models
the uncaught exception raised by `parameters.items()` when `parameters` is a
truthy non-dict; it happens before any setter call. -/
def applyAdjustments (st : Store) (adjustments : List (String × PyValue)) :
    Except Unit ApplyOutcome :=
  if !(dictGetD adjustments "parameters" (.pyDict [])).truthy then
    .ok ⟨false, [], 0, 0⟩
  else
    match dictGetD adjustments "parameters" (.pyDict []) with
    | .pyDict ps =>
        .ok ⟨decide (0 < (applyLoop st ps).2), (applyLoop st ps).1,
             (applyLoop st ps).2, ps.length⟩
    | _ => .error ()

/-- The `NiagaraAIAssistant` availability state: whether the `openai` library
imported (`OPENAI_AVAILABLE`) and the configured API key
(`Config.get_api_key()`, `Option.none` when absent). -/
structure Assistant where
  openai_available : Bool
  api_key : Option String

/-- `NiagaraAIAssistant.is_available` (openai_client.py lines 45-47):
`OPENAI_AVAILABLE and self.api_key is not None`. -/
def Assistant.is_available (a : Assistant) : Bool :=
  a.openai_available && a.api_key.isSome

/-- Externally observable outcome of one `adjust_parameters` call: the
returned boolean, whether the completion-provider client was invoked, the
store-setter invocations, and the explanation text logged to the user
(`Option.none` when no explanation log line is emitted). -/
structure AdjustOutcome where
  result : Bool
  client_called : Bool
  calls : List SetterCall
  explanation_shown : Option PyValue

/-- `NiagaraAIAssistant.adjust_parameters` (openai_client.py lines 49-99).
`parsed` is the oracle for the provider round-trip plus `json.loads`:
`.error ()` when the chat-completion call raises or the completion text is
not valid JSON (`json.loads` raises), `.ok v` the parsed JSON value.  The
availability guard runs first; every exception inside the `try` block is
caught and turns into `return False`; the explanation is logged only inside
the `if success:` block, reading `adjustments.get("explanation", "无说明")`.
A parsed value that is not a JSON object makes `adjustments.get` raise
`AttributeError`, caught likewise. -/
def adjust_parameters (a : Assistant) (st : Store)
    (parsed : Except Unit PyValue) : AdjustOutcome :=
  if !a.is_available then
    ⟨false, false, [], Option.none⟩
  else
    match parsed with
    | .error _ => ⟨false, true, [], Option.none⟩
    | .ok adjustments =>
        match adjustments with
        | .pyDict aobj =>
            match applyAdjustments st aobj with
            | .error _ => ⟨false, true, [], Option.none⟩
            | .ok out =>
                ⟨out.result, true, out.calls,
                 if out.result then
                   some (dictGetD aobj "explanation" (.pyStr "无说明"))
                 else Option.none⟩
        | _ => ⟨false, true, [], Option.none⟩

/-! ### ParameterManager bulk reading (parameter_manager.py) -/

/-- The engine side of the `ParameterManager` getters: each underlying
`unreal.NiagaraVariableHelpers.get_niagara_variable_*` call either returns a
value or raises (`Option.none`). -/
structure NiagaraStore where
  float_read : String → Option Rat
  vec_read : String → Option (Rat × Rat × Rat)
  color_read : String → Option (Rat × Rat × Rat × Rat)

/-- `ParameterManager.get_float` (lines 56-65): the underlying read is tried;
on exception the handler logs a warning and returns `0.0`.  The `Except`
result records whether `get_float` itself raises — it never does, so the
result is always `.ok`. -/
def get_float (ns : NiagaraStore) (name : String) : Except Unit Rat :=
  .ok ((ns.float_read name).getD 0)

/-- `ParameterManager.get_vector` (lines 78-87): on exception returns
`unreal.Vector(0, 0, 0)`; never raises. -/
def get_vector (ns : NiagaraStore) (name : String) :
    Except Unit (Rat × Rat × Rat) :=
  .ok ((ns.vec_read name).getD (0, 0, 0))

/-- `ParameterManager.get_color` (lines 67-76): on exception returns
`unreal.LinearColor(1, 1, 1, 1)`; never raises. -/
def get_color (ns : NiagaraStore) (name : String) :
    Except Unit (Rat × Rat × Rat × Rat) :=
  .ok ((ns.color_read name).getD (1, 1, 1, 1))

/-- The kind tag recorded by `get_all_parameters`. -/
inductive ParamKind where
  | float
  | vector
  | color
  | unknown
deriving DecidableEq

/-- The value recorded by `get_all_parameters` (`pnull` is Python `None`). -/
inductive ParamValue where
  | pfloat (q : Rat)
  | pvec (x y z : Rat)
  | pcolor (r g b a : Rat)
  | pnull

/-- Loop body of `ParameterManager.get_all_parameters` (lines 181-198) for one
name: try `get_float`; if it raises, try `get_vector`; if that raises, try
`get_color`; if that raises too, record `unknown` with value `None`. -/
def read_one_param (ns : NiagaraStore) (name : String) :
    ParamKind × ParamValue :=
  match get_float ns name with
  | .ok v => (.float, .pfloat v)
  | .error _ =>
      match get_vector ns name with
      | .ok (x, y, z) => (.vector, .pvec x y z)
      | .error _ =>
          match get_color ns name with
          | .ok (r, g, b, a) => (.color, .pcolor r g b a)
          | .error _ => (.unknown, .pnull)

/-- `ParameterManager.get_all_parameters` (lines 172-200) over the enumerated
parameter names. -/
def get_all_parameters (ns : NiagaraStore) (names : List String) :
    List (String × ParamKind × ParamValue) :=
  names.map (fun n => (n, read_one_param ns n))

/-- The claim's reading of the bulk reader, written from the spec sentence:
attempt a Scalar read, then a Vector3 read, then a Color read, record the
first kind whose underlying read does not fail; when all three fail, record
`unknown` with a null value. -/
def spec_read_one_param (ns : NiagaraStore) (name : String) :
    ParamKind × ParamValue :=
  match ns.float_read name with
  | some v => (.float, .pfloat v)
  | Option.none =>
      match ns.vec_read name with
      | some (x, y, z) => (.vector, .pvec x y z)
      | Option.none =>
          match ns.color_read name with
          | some (r, g, b, a) => (.color, .pcolor r g b a)
          | Option.none => (.unknown, .pnull)

/-! ### Concrete instances used by witnesses and counterexamples -/

/-- A store on which every write succeeds. -/
def allOkStore : Store :=
  ⟨fun _ _ => true, fun _ _ => true, fun _ _ _ _ _ => true,
   fun _ _ _ _ => true⟩

/-- A store on which every write fails. -/
def allFailStore : Store :=
  ⟨fun _ _ => false, fun _ _ => false, fun _ _ _ _ _ => false,
   fun _ _ _ _ => false⟩

/-- A store that only accepts writes to the parameter named "A". -/
def onlyAStore : Store :=
  ⟨fun n _ => n == "A", fun n _ => n == "A", fun n _ _ _ _ => n == "A",
   fun n _ _ _ => n == "A"⟩

/-- An assistant with the openai library importable and an API key set. -/
def okAssistant : Assistant :=
  ⟨true, some "sk-test"⟩

/-- A Niagara store whose float reads all raise while vector reads return
`(1, 2, 3)`. -/
def brokenFloatStore : NiagaraStore :=
  ⟨fun _ => Option.none, fun _ => some (1, 2, 3), fun _ => Option.none⟩

/-! ### Helper lemmas -/

/-- For one loop iteration, the contribution to `success_count` is exactly the
number of its setter calls that returned true. -/
lemma applyOnePair_snd_eq_countP (st : Store) (n : String) (v : PyValue) :
    (applyOnePair st n v).2 = List.countP st.callOk (applyOnePair st n v).1 := by
  cases v <;>
    simp only [applyOnePair] <;>
    split_ifs <;>
    simp_all [Store.callOk, List.countP_cons, isinstanceIntFloat,
      isinstanceBool]

/-- Generalised over the accumulator: the numeric component of the fold is the
number of true-returning calls in its trace component. -/
lemma applyFold_snd_eq_countP (st : Store) (ps : List (String × PyValue))
    (acc : List SetterCall × Nat)
    (hacc : acc.2 = List.countP st.callOk acc.1) :
    (ps.foldl (applyStep st) acc).2 =
      List.countP st.callOk (ps.foldl (applyStep st) acc).1 := by
  induction ps generalizing acc with
  | nil => simpa using hacc
  | cons p t ih =>
      simp only [List.foldl_cons]
      apply ih
      simp [applyStep, List.countP_append, hacc, applyOnePair_snd_eq_countP]

/-- `success_count` counts exactly the setter calls that returned true. -/
lemma applyLoop_snd_eq_countP (st : Store) (ps : List (String × PyValue)) :
    (applyLoop st ps).2 = List.countP st.callOk (applyLoop st ps).1 :=
  applyFold_snd_eq_countP st ps ([], 0) (by simp)

/-- Characterisation of `_apply_adjustments` when the `parameters` entry is a
non-empty JSON object. -/
lemma applyAdjustments_dict (st : Store) (adj ps : List (String × PyValue))
    (hps : dictGetD adj "parameters" (.pyDict []) = .pyDict ps)
    (hne : ps ≠ []) :
    applyAdjustments st adj =
      .ok ⟨decide (0 < (applyLoop st ps).2), (applyLoop st ps).1,
           (applyLoop st ps).2, ps.length⟩ := by
  obtain ⟨p, t, rfl⟩ : ∃ p t, ps = p :: t := by
    cases ps with
    | nil => exact absurd rfl hne
    | cons p t => exact ⟨p, t, rfl⟩
  unfold applyAdjustments
  rw [hps]
  rfl

/-! ### Claim theorems -/

/-- Claim C1 (code bug): the claim says a JSON boolean is classified as
Boolean before any numeric classification, so `set_bool` is invoked and never
`set_float`.  The code tests `isinstance(value, (int, float))` before
`isinstance(value, bool)`, and in Python `bool` is a subclass of `int`, so a
boolean value such as `{"Enabled": true}` is dispatched to `set_float`; the
`set_bool` branch is unreachable.  This theorem evaluates the loop body on an
arbitrary boolean: the only setter invoked is the Scalar setter. -/
theorem C1_bool_dispatched_to_scalar_setter (st : Store) (name : String)
    (b : Bool) :
    (applyOnePair st name (.pyBool b)).1 =
      [SetterCall.setFloat name (.pyBool b)] :=
  rfl

/-- Claim C2, counterexample: on `{"Offset": {"x": 5.0}}` the claim says the
Vector setter is invoked with `(5.0, 0.0, 0.0)`; the code requires all three
keys `"x"`, `"y"`, `"z"` before taking the vector branch, so this pair is
silently skipped and no setter is invoked at all. -/
theorem C2_subset_vector_keys_skipped :
    (applyOnePair allOkStore "Offset" (.pyDict [("x", .pyFloat 5)])).1 = [] ∧
    ([] : List SetterCall) ≠
      [SetterCall.setVector "Offset" (.pyFloat 5) (.pyFloat 0) (.pyFloat 0)] :=
  ⟨rfl, by simp⟩

/-- Claim C2, amended: a pair whose value is a JSON object (not matching the
color key set) is classified as Vector3 exactly when all three keys `"x"`,
`"y"`, `"z"` are present; an object with only a subset of the vector keys is
silently skipped with no setter invoked.  (The `get(..., 0.0)` defaults in
the source are unreachable, since the guard requires all three keys.) -/
theorem C2_vector_requires_all_three_keys (st : Store) (name : String)
    (d : List (String × PyValue))
    (hc : (dictHasKey d "r" && dictHasKey d "g" && dictHasKey d "b") = false) :
    (applyOnePair st name (.pyDict d)).1 =
      (if dictHasKey d "x" && dictHasKey d "y" && dictHasKey d "z" then
        [SetterCall.setVector name (dictGetD d "x" (.pyFloat 0))
          (dictGetD d "y" (.pyFloat 0)) (dictGetD d "z" (.pyFloat 0))]
      else []) := by
  cases hv : dictHasKey d "x" && dictHasKey d "y" && dictHasKey d "z" <;>
    simp [applyOnePair, hc, hv]

theorem C2_vector_requires_all_three_keys_witness :
    (applyOnePair allOkStore "Offset"
        (.pyDict [("x", .pyFloat 5), ("y", .pyFloat 6), ("z", .pyFloat 7)])).1 =
      (if dictHasKey [("x", PyValue.pyFloat 5), ("y", PyValue.pyFloat 6),
            ("z", PyValue.pyFloat 7)] "x" &&
          dictHasKey [("x", PyValue.pyFloat 5), ("y", PyValue.pyFloat 6),
            ("z", PyValue.pyFloat 7)] "y" &&
          dictHasKey [("x", PyValue.pyFloat 5), ("y", PyValue.pyFloat 6),
            ("z", PyValue.pyFloat 7)] "z" then
        [SetterCall.setVector "Offset"
          (dictGetD [("x", PyValue.pyFloat 5), ("y", PyValue.pyFloat 6),
            ("z", PyValue.pyFloat 7)] "x" (.pyFloat 0))
          (dictGetD [("x", PyValue.pyFloat 5), ("y", PyValue.pyFloat 6),
            ("z", PyValue.pyFloat 7)] "y" (.pyFloat 0))
          (dictGetD [("x", PyValue.pyFloat 5), ("y", PyValue.pyFloat 6),
            ("z", PyValue.pyFloat 7)] "z" (.pyFloat 0))]
      else []) :=
  C2_vector_requires_all_three_keys allOkStore "Offset"
    [("x", .pyFloat 5), ("y", .pyFloat 6), ("z", .pyFloat 7)] rfl

/-- Claim C3, counterexample: with parameters `{"A": 1.0, "B": {"w": 2.0}}`
the claim says `attempted` is 1 (the unrecognized-object pair `"B"` excluded);
the code reports `total_count = len(parameters) = 2`, while only one pair was
classified (one setter call made). -/
theorem C3_total_includes_unrecognized :
    applyAdjustments allOkStore
        [("parameters", .pyDict
          [("A", .pyFloat 1), ("B", .pyDict [("w", .pyFloat 2)])])] =
      .ok ⟨true, [SetterCall.setFloat "A" (.pyFloat 1)], 1, 2⟩ ∧
    (2 : Nat) ≠ 1 :=
  ⟨rfl, by decide⟩

/-- Claim C3, amended: the attempted count reported by `_apply_adjustments`
(`total_count` in its result log) equals the total number of (name, value)
pairs in the `parameters` mapping, including pairs whose value is an object
matching neither the color nor the vector key set. -/
theorem C3_attempted_counts_all_pairs (st : Store)
    (adj ps : List (String × PyValue))
    (hps : dictGetD adj "parameters" (.pyDict []) = .pyDict ps)
    (hne : ps ≠ []) :
    Except.map ApplyOutcome.total_count (applyAdjustments st adj) =
      .ok ps.length := by
  rw [applyAdjustments_dict st adj ps hps hne]
  rfl

theorem C3_attempted_counts_all_pairs_witness :
    Except.map ApplyOutcome.total_count
        (applyAdjustments allOkStore
          [("parameters", .pyDict
            [("A", .pyFloat 1), ("B", .pyDict [("w", .pyFloat 2)])])]) =
      .ok ([("A", PyValue.pyFloat 1),
            ("B", PyValue.pyDict [("w", PyValue.pyFloat 2)])].length) :=
  C3_attempted_counts_all_pairs allOkStore
    [("parameters", .pyDict [("A", .pyFloat 1), ("B", .pyDict [("w", .pyFloat 2)])])]
    [("A", .pyFloat 1), ("B", .pyDict [("w", .pyFloat 2)])]
    rfl (by simp)

/-- Claim C4 (confirmed, and slightly stronger: the non-emptiness assumption
is not needed): whenever `_apply_adjustments` returns without raising, the
returned boolean is true exactly when the number of setter calls that
returned true is strictly positive. -/
theorem C4_success_iff_some_write_landed (st : Store)
    (adj : List (String × PyValue)) (o : ApplyOutcome)
    (ho : applyAdjustments st adj = .ok o) :
    (o.result = true ↔ 0 < List.countP st.callOk o.calls) := by
  unfold applyAdjustments at ho
  split at ho
  · cases ho
    simp
  · split at ho
    · cases ho
      simp only [decide_eq_true_eq]
      rw [applyLoop_snd_eq_countP]
    · exact absurd ho (by simp)

theorem C4_success_iff_some_write_landed_witness :
    ((⟨true, [SetterCall.setFloat "A" (.pyFloat 2),
        SetterCall.setFloat "B" (.pyFloat 3)], 1, 2⟩ : ApplyOutcome).result
        = true ↔
      0 < List.countP onlyAStore.callOk
        [SetterCall.setFloat "A" (.pyFloat 2),
         SetterCall.setFloat "B" (.pyFloat 3)]) :=
  C4_success_iff_some_write_landed onlyAStore
    [("parameters", .pyDict [("A", .pyFloat 2), ("B", .pyFloat 3)])]
    ⟨true, [SetterCall.setFloat "A" (.pyFloat 2),
      SetterCall.setFloat "B" (.pyFloat 3)], 1, 2⟩
    rfl

/-- Claim C5 (confirmed): when the completion text is not valid JSON
(`json.loads` raises, modelled by the parse oracle returning `.error ()`),
`adjust_parameters` returns failure and invokes no parameter-store setter:
the store is unchanged. -/
theorem C5_parse_failure_is_failure_without_writes (a : Assistant)
    (st : Store) :
    (adjust_parameters a st (.error ())).result = false ∧
    (adjust_parameters a st (.error ())).calls = [] := by
  unfold adjust_parameters
  cases h : a.is_available <;> simp [h]

/-- Claim C6, counterexample: on a parsed response
`{"parameters": {"A": 1.0}, "explanation": "made it bigger"}` against a store
on which the write fails, the aggregate result is failure — and the
explanation is not surfaced, although the claim says it is shown regardless
of the aggregate outcome.  (The source logs the explanation only inside the
`if success:` block.) -/
theorem C6_explanation_dropped_on_failure :
    (adjust_parameters okAssistant allFailStore
        (.ok (.pyDict [("parameters", .pyDict [("A", .pyFloat 1)]),
          ("explanation", .pyStr "made it bigger")]))).result = false ∧
    (adjust_parameters okAssistant allFailStore
        (.ok (.pyDict [("parameters", .pyDict [("A", .pyFloat 1)]),
          ("explanation", .pyStr "made it bigger")]))).explanation_shown =
      Option.none :=
  ⟨rfl, rfl⟩

/-- Claim C6, amended: for a parsed JSON-object response, the explanation is
surfaced exactly when the aggregate adjustment result is success; on
aggregate failure no explanation is shown. -/
theorem C6_explanation_shown_iff_success (a : Assistant) (st : Store)
    (aobj : List (String × PyValue)) (h : a.is_available = true) :
    (adjust_parameters a st (.ok (.pyDict aobj))).explanation_shown =
      (if (adjust_parameters a st (.ok (.pyDict aobj))).result then
        some (dictGetD aobj "explanation" (.pyStr "无说明"))
      else Option.none) := by
  unfold adjust_parameters
  rw [h]
  cases happ : applyAdjustments st aobj with
  | error e => simp [happ]
  | ok o => cases ho : o.result <;> simp [happ, ho]

theorem C6_explanation_shown_iff_success_witness :
    (adjust_parameters okAssistant allOkStore
        (.ok (.pyDict [("parameters", .pyDict [("A", .pyFloat 1)]),
          ("explanation", .pyStr "made it bigger")]))).explanation_shown =
      (if (adjust_parameters okAssistant allOkStore
            (.ok (.pyDict [("parameters", .pyDict [("A", .pyFloat 1)]),
              ("explanation", .pyStr "made it bigger")]))).result then
        some (dictGetD [("parameters", PyValue.pyDict [("A", PyValue.pyFloat 1)]),
          ("explanation", PyValue.pyStr "made it bigger")] "explanation"
          (.pyStr "无说明"))
      else Option.none) :=
  C6_explanation_shown_iff_success okAssistant allOkStore
    [("parameters", .pyDict [("A", .pyFloat 1)]),
     ("explanation", .pyStr "made it bigger")] rfl

/-- Claim C7 (confirmed): with no API key configured (`get_api_key` returned
absent, so `api_key` is `None`), `is_available()` is false whatever the
library-import flag says, and `adjust_parameters` short-circuits to failure
without invoking the completion-provider client and without any store
write. -/
theorem C7_no_api_key_short_circuits (avail : Bool) (st : Store)
    (parsed : Except Unit PyValue) :
    Assistant.is_available ⟨avail, Option.none⟩ = false ∧
    adjust_parameters ⟨avail, Option.none⟩ st parsed =
      ⟨false, false, [], Option.none⟩ := by
  constructor
  · simp [Assistant.is_available]
  · unfold adjust_parameters
    simp [Assistant.is_available]

/-- Claim C8 (confirmed): when the parsed response's `parameters` mapping is
empty — or absent, in which case `adjustments.get("parameters", {})` defaults
to empty — `_apply_adjustments` returns failure with no setter invocation and
no exception (`.ok`, not `.error`). -/
theorem C8_empty_parameters_noop_failure (st : Store)
    (adj : List (String × PyValue))
    (h : dictGetD adj "parameters" (.pyDict []) = .pyDict []) :
    applyAdjustments st adj = .ok ⟨false, [], 0, 0⟩ := by
  unfold applyAdjustments
  rw [h]
  rfl

theorem C8_empty_parameters_noop_failure_witness :
    applyAdjustments allOkStore
        [("parameters", PyValue.pyDict []),
         ("explanation", PyValue.pyStr "nothing to change")] =
      .ok ⟨false, [], 0, 0⟩ :=
  C8_empty_parameters_noop_failure allOkStore
    [("parameters", PyValue.pyDict []),
     ("explanation", PyValue.pyStr "nothing to change")] rfl

/-- Claim C9, counterexample: the claim says `get_all_parameters` records the
first kind among Scalar, Vector3, Color whose read does not fail.  On a store
whose underlying float reads raise but whose vector reads return `(1, 2, 3)`,
that reading records kind `vector`; the code records kind `float` with value
`0.0`, because `get_float` catches the failure internally and returns `0.0`
instead of raising, so the vector/color/unknown fallbacks never run. -/
theorem C9_first_kind_reading_refuted :
    read_one_param brokenFloatStore "Size" = (.float, .pfloat 0) ∧
    spec_read_one_param brokenFloatStore "Size" = (.vector, .pvec 1 2 3) ∧
    ParamKind.float ≠ ParamKind.vector :=
  ⟨rfl, rfl, by decide⟩

/-- Claim C9, amended: for every enumerated parameter name,
`get_all_parameters` records kind `float`, with the value returned by
`get_float` (the underlying read's value, or `0.0` when that read fails);
the Vector3, Color and `unknown` fallbacks are unreachable because
`get_float` never raises. -/
theorem C9_always_records_float (ns : NiagaraStore) (names : List String) :
    get_all_parameters ns names =
      names.map (fun n =>
        (n, ParamKind.float, ParamValue.pfloat ((ns.float_read n).getD 0))) :=
  rfl

/-- Claim C10 (confirmed): a pair whose value is a JSON object containing all
of `"r"`, `"g"`, `"b"` and also all of `"x"`, `"y"`, `"z"` is classified as
Color — the color key set is tested first — so the Color setter is the only
setter invoked, never the Vector setter. -/
theorem C10_color_keys_beat_vector_keys (st : Store) (name : String)
    (d : List (String × PyValue))
    (hr : dictHasKey d "r" = true) (hg : dictHasKey d "g" = true)
    (hb : dictHasKey d "b" = true)
    (hx : dictHasKey d "x" = true) (hy : dictHasKey d "y" = true)
    (hz : dictHasKey d "z" = true) :
    (applyOnePair st name (.pyDict d)).1 =
      [SetterCall.setColor name (dictGetD d "r" (.pyFloat 1))
        (dictGetD d "g" (.pyFloat 1)) (dictGetD d "b" (.pyFloat 1))
        (dictGetD d "a" (.pyFloat 1))] := by
  simp [applyOnePair, hr, hg, hb]

theorem C10_color_keys_beat_vector_keys_witness :
    (applyOnePair allOkStore "Tint"
        (.pyDict [("r", .pyFloat 1), ("g", .pyFloat 0), ("b", .pyFloat 0),
          ("x", .pyFloat 2), ("y", .pyFloat 3), ("z", .pyFloat 4)])).1 =
      [SetterCall.setColor "Tint"
        (dictGetD [("r", PyValue.pyFloat 1), ("g", PyValue.pyFloat 0),
          ("b", PyValue.pyFloat 0), ("x", PyValue.pyFloat 2),
          ("y", PyValue.pyFloat 3), ("z", PyValue.pyFloat 4)] "r" (.pyFloat 1))
        (dictGetD [("r", PyValue.pyFloat 1), ("g", PyValue.pyFloat 0),
          ("b", PyValue.pyFloat 0), ("x", PyValue.pyFloat 2),
          ("y", PyValue.pyFloat 3), ("z", PyValue.pyFloat 4)] "g" (.pyFloat 1))
        (dictGetD [("r", PyValue.pyFloat 1), ("g", PyValue.pyFloat 0),
          ("b", PyValue.pyFloat 0), ("x", PyValue.pyFloat 2),
          ("y", PyValue.pyFloat 3), ("z", PyValue.pyFloat 4)] "b" (.pyFloat 1))
        (dictGetD [("r", PyValue.pyFloat 1), ("g", PyValue.pyFloat 0),
          ("b", PyValue.pyFloat 0), ("x", PyValue.pyFloat 2),
          ("y", PyValue.pyFloat 3), ("z", PyValue.pyFloat 4)] "a"
          (.pyFloat 1))] :=
  C10_color_keys_beat_vector_keys allOkStore "Tint"
    [("r", .pyFloat 1), ("g", .pyFloat 0), ("b", .pyFloat 0),
     ("x", .pyFloat 2), ("y", .pyFloat 3), ("z", .pyFloat 4)]
    rfl rfl rfl rfl rfl rfl

end AINiagara
